import Mathlib

/-!
Shallow embedding of the ProxyTool chat backend (Python) in Lean 4.

The embedding covers:
* the structured-output extraction chain of `LlmRunnable.invoke`
  (src/WorkFlow/chain.py), together with the pydantic model
  `ChatResponseModel` (src/WorkFlow/ChatModel.py);
* the audio transcription routine `TranscribeAudio`
  (src/utils/TranscribeAudio.py);
* the chat orchestration `InvokeChat`
  (src/Services/ChatService/InvokeChatService.py), including its history
  windowing, audio temp-file handling and best-effort persistence.

Python exceptions are modelled by an explicit error type `PyErr` and
fallible code returns `Except PyErr _`.  Python strings are Lean `String`
(a list of characters in this toolchain); the Python string operations
used by the code (`strip`, `startswith`, `endswith`, `in`, `lower`, `len`)
are re-implemented below with Python semantics so that everything reduces
by computation.
-/

/-- Python exceptions that appear in the modelled code, by class.
`valueError` is the Python builtin `ValueError`; `emailNotFound`,
`databaseOperation` and `audioTranscription` are the repository
`BaseAppException` subclasses (`EmailNotFoundException`,
`DatabaseOperationException(operation, message)`,
`AudioTranscriptionException` classes); `pydanticValidation` is the pydantic
`ValidationError` (a `ValueError` subclass); `fileNotFound` is the builtin
`FileNotFoundError` (an `OSError`, not a `ValueError`); `groqError` is the
Groq client `GroqError`; `other` is any other exception (e.g.
`NameError`). -/
inductive PyErr where
  | valueError (msg : String)
  | emailNotFound (email : String)
  | databaseOperation (operation : String) (msg : String)
  | audioTranscription (msg : String)
  | pydanticValidation (msg : String)
  | fileNotFound (msg : String)
  | groqError (msg : String)
  | other (msg : String)
deriving DecidableEq, Repr

/-- An approximation of Python `str(e)` for the modelled exceptions:
the stored message text. -/
def PyErr.text : PyErr → String
  | .valueError m => m
  | .emailNotFound m => m
  | .databaseOperation _ m => m
  | .audioTranscription m => m
  | .pydanticValidation m => m
  | .fileNotFound m => m
  | .groqError m => m
  | .other m => m

/-! ### Python string semantics -/

/-- Characters treated as whitespace by Python `str.strip()` (the ASCII
ones: space, tab, newline, carriage return, vertical tab, form feed). -/
def isPySpace (c : Char) : Bool :=
  c = ' ' || c = '\t' || c = '\n' || c = '\r' ||
  c = Char.ofNat 11 || c = Char.ofNat 12

/-- `hay` starts with `needle` (Python `str.startswith`). -/
def pyStartsWithL : List Char → List Char → Bool
  | _, [] => true
  | [], _ :: _ => false
  | a :: as_, b :: bs => a = b && pyStartsWithL as_ bs

/-- Python substring containment (`needle in hay`). -/
def pyContainsL : List Char → List Char → Bool
  | hay, needle =>
    pyStartsWithL hay needle ||
      match hay with
      | [] => false
      | _ :: t => pyContainsL t needle

/-- Python `str.strip()` on character lists. -/
def pyStripL (l : List Char) : List Char :=
  ((l.dropWhile isPySpace).reverse.dropWhile isPySpace).reverse

/-- Python `str.strip()`. -/
def pyStrip (s : String) : String := String.mk (pyStripL s.data)

/-- Python `len` on strings (number of characters). -/
def pyLen (s : String) : Nat := s.data.length

/-- Python `str.startswith`. -/
def pyStartsWith (s pre : String) : Bool := pyStartsWithL s.data pre.data

/-- Python `str.endswith`. -/
def pyEndsWith (s suf : String) : Bool :=
  pyStartsWithL s.data.reverse suf.data.reverse

/-- Python `needle in hay` for strings. -/
def pyContains (hay needle : String) : Bool := pyContainsL hay.data needle.data

/-- Python `str.lower()` (ASCII case folding suffices here). -/
def pyLower (s : String) : String := String.mk (s.data.map Char.toLower)

/-- Truthiness of a Python `Optional[str]` (`None` and `""` are falsy). -/
def pyTruthyOpt : Option String → Bool
  | none => false
  | some s => s ≠ ""

/-! ### The pydantic model `ChatResponseModel` (src/WorkFlow/ChatModel.py)

`explanation : str = Field(..., min_length=10)` — required, at least 10
characters; `code : str = ""` — optional, defaults to the empty string.
Construction validates; failure raises pydantic `ValidationError`. -/

structure ChatResponseModel where
  explanation : String
  code : String
deriving DecidableEq, Repr

/-- Constructing `ChatResponseModel(explanation=..., code=...)`:
pydantic validates `min_length=10` on `explanation` and raises a
`ValidationError` when it is shorter. -/
def mkChatResponseModel (explanation code : String) :
    Except PyErr ChatResponseModel :=
  if pyLen explanation < 10 then
    .error (.pydanticValidation "String should have at least 10 characters")
  else
    .ok ⟨explanation, code⟩

/-- `ChatResponseModel(**d)` for a parsed JSON object `d` (an association
list of string keys and string values, later duplicates winning as in
`json.loads`): `explanation` is required (missing key is a
`ValidationError`), `code` defaults to `""`, extra keys are ignored
(the pydantic default of ignoring extras). -/
def chatModelFromDict (d : List (String × String)) :
    Except PyErr ChatResponseModel :=
  match (d.filter (fun kv => kv.1 = "explanation")).getLast? with
  | none => .error (.pydanticValidation "Field required")
  | some kv =>
      mkChatResponseModel kv.2
        (((d.filter (fun kv => kv.1 = "code")).getLast?).map Prod.snd |>.getD "")

/-! ### `json.loads` restricted to flat string-valued objects

The extraction chain only ever feeds `json.loads` output into
`ChatResponseModel(**parsed)`, whose two fields are strings.  The parser
below accepts exactly the JSON objects whose values are strings (with the
common escapes); every other input — including well-formed JSON of a
different shape — is reported as a parse failure.  For the inputs examined
in the theorems below this coincides with the Python behaviour. -/

def skipWs (l : List Char) : List Char := l.dropWhile isPySpace

/-- Parse the body of a JSON string literal (after the opening quote);
returns the decoded content and the remainder after the closing quote.
`\uXXXX` escapes and raw control characters are rejected. -/
def parseJString (fuel : Nat) (l : List Char) :
    Option (List Char × List Char) :=
  match fuel, l with
  | 0, _ => none
  | _, [] => none
  | fuel + 1, c :: rest =>
    if c = '"' then some ([], rest)
    else if c = '\\' then
      match rest with
      | [] => none
      | e :: rest2 =>
        let dec : Option Char :=
          if e = '"' then some '"'
          else if e = '\\' then some '\\'
          else if e = '/' then some '/'
          else if e = 'n' then some '\n'
          else if e = 't' then some '\t'
          else if e = 'r' then some '\r'
          else if e = 'b' then some (Char.ofNat 8)
          else if e = 'f' then some (Char.ofNat 12)
          else none
        match dec with
        | none => none
        | some d =>
          match parseJString fuel rest2 with
          | some (cs, r) => some (d :: cs, r)
          | none => none
    else if c.toNat < 32 then none
    else
      match parseJString fuel rest with
      | some (cs, r) => some (c :: cs, r)
      | none => none

/-- Parse one `"key" : "value"` member. -/
def parseJPair (fuel : Nat) (l : List Char) :
    Option ((String × String) × List Char) :=
  match l with
  | [] => none
  | c :: rest =>
    if c = '"' then
      match parseJString fuel rest with
      | none => none
      | some (k, r1) =>
        match skipWs r1 with
        | [] => none
        | c2 :: r3 =>
          if c2 = ':' then
            match skipWs r3 with
            | [] => none
            | c3 :: r5 =>
              if c3 = '"' then
                match parseJString fuel r5 with
                | some (v, r6) => some ((String.mk k, String.mk v), r6)
                | none => none
              else none
          else none
    else none

/-- Parse a non-empty, comma-separated member list up to and including the
closing brace. -/
def parseJMembers (fuel : Nat) (l : List Char) :
    Option (List (String × String) × List Char) :=
  match fuel with
  | 0 => none
  | fuel + 1 =>
    match parseJPair fuel l with
    | none => none
    | some (kv, r) =>
      match skipWs r with
      | [] => none
      | c :: r2 =>
        if c = ',' then
          match parseJMembers fuel (skipWs r2) with
          | some (kvs, r3) => some (kv :: kvs, r3)
          | none => none
        else if c = Char.ofNat 125 then some ([kv], r2)
        else none

/-- `json.loads` on a whole string, restricted to flat string-valued
objects; `none` plays the role of `json.JSONDecodeError`. -/
def jsonParseObj (s : String) : Option (List (String × String)) :=
  match skipWs s.data with
  | [] => none
  | c :: r =>
    if c = Char.ofNat 123 then
      match skipWs r with
      | [] => none
      | c2 :: r2 =>
        if c2 = Char.ofNat 125 then
          if skipWs r2 = [] then some [] else none
        else
          match parseJMembers (s.data.length + 1) (skipWs r) with
          | some (kvs, rest) => if skipWs rest = [] then some kvs else none
          | none => none
    else none

/-! ### Strategy 1 — pure JSON (chain.py lines 121-131)

If the stripped response starts with an opening brace and ends with a
closing brace, `json.loads` it and build `ChatResponseModel(**parsed)`.
`none` means the branch was not taken or the JSON failed to decode
(`except json.JSONDecodeError` falls through to the next strategy);
`some (.error e)` means decoding succeeded but model construction raised —
that exception escapes the inner handler and is caught only by the outer
`except Exception`, which goes straight to the raw-text fallback. -/

def tryPureJson (response_clean : String) :
    Option (Except PyErr ChatResponseModel) :=
  if pyStartsWith response_clean "\x7b" && pyEndsWith response_clean "\x7d" then
    match jsonParseObj response_clean with
    | some d => some (chatModelFromDict d)
    | none => none
  else none

/-! ### Strategy 2 — fenced JSON block (chain.py lines 133-144)

Models the search for the regex pattern of a code fence, optionally tagged
`json`, holding a brace-delimited object (non-greedy, DOTALL).  The search
scans left to right for a fence opening; after it, an optional `json` tag
and whitespace must be followed by an opening brace, and the object body
is the shortest span whose closing brace is followed (after whitespace) by
a closing fence. -/

def fenceBody (fuel : Nat) (l : List Char) : Option (List Char) :=
  match fuel, l with
  | 0, _ => none
  | _, [] => none
  | fuel + 1, c :: rest =>
    if c = Char.ofNat 125 then
      if pyStartsWithL (skipWs rest) "```".data then some []
      else
        match fenceBody fuel rest with
        | some cs => some (c :: cs)
        | none => none
    else
      match fenceBody fuel rest with
      | some cs => some (c :: cs)
      | none => none

/-- After a fence opening: optional `json` tag, whitespace, then the
braced object; returns the text of the captured object. -/
def fenceAfterTicks (l : List Char) : Option (List Char) :=
  let l1 := if pyStartsWithL l "json".data then l.drop 4 else l
  match skipWs l1 with
  | [] => none
  | c :: rest =>
    if c = Char.ofNat 123 then
      match fenceBody (rest.length + 1) rest with
      | some body => some (Char.ofNat 123 :: (body ++ [Char.ofNat 125]))
      | none => none
    else none

/-- Leftmost fence match in the text. -/
def searchFence (fuel : Nat) (l : List Char) : Option (List Char) :=
  match fuel with
  | 0 => none
  | fuel + 1 =>
    let here :=
      if pyStartsWithL l "```".data then fenceAfterTicks (l.drop 3) else none
    match here with
    | some g => some g
    | none =>
      match l with
      | [] => none
      | _ :: t => searchFence fuel t

/-- Strategy 2 proper.  Result encoding as in `tryPureJson`: a
`ValidationError` from model construction escapes to the outer handler
(only `json.JSONDecodeError` is caught and falls through). -/
def tryFencedJson (response_clean : String) :
    Option (Except PyErr ChatResponseModel) :=
  if pyContains response_clean "```json" || pyContains response_clean "```" then
    match searchFence (response_clean.data.length + 1) response_clean.data with
    | some g =>
      match jsonParseObj (String.mk g) with
      | some d => some (chatModelFromDict d)
      | none => none
    | none => none
  else none

/-! ### Strategy 3 — bold-marker sections (chain.py lines 146-178)

Whole strategy runs under `except Exception`, so any failure (including a
`ValidationError` from model construction) falls through to strategy 4. -/

/-- Suffix of `hay` after the first case-insensitive occurrence of
`needle` (`needle` given lowercase), or `none`. -/
def afterFirstCI (fuel : Nat) (hay needle : List Char) : Option (List Char) :=
  match fuel with
  | 0 => none
  | fuel + 1 =>
    if pyStartsWithL (hay.map Char.toLower) needle then
      some (hay.drop needle.length)
    else
      match hay with
      | [] => none
      | _ :: t => afterFirstCI fuel t needle

/-- Prefix of `hay` before the first case-insensitive occurrence of
`needle`, or `none` when absent. -/
def beforeFirstCI (fuel : Nat) (hay needle : List Char) :
    Option (List Char) :=
  match fuel with
  | 0 => none
  | fuel + 1 =>
    if pyStartsWithL (hay.map Char.toLower) needle then some []
    else
      match hay with
      | [] => none
      | c :: t =>
        match beforeFirstCI fuel t needle with
        | some pre => some (c :: pre)
        | none => none

/-- A span captured lazily up to `$` without `re.MULTILINE`: the end of
the string, or just before a single trailing newline. -/
def untilDollar (l : List Char) : List Char :=
  match l.reverse with
  | c :: r => if c = '\n' then r.reverse else l
  | [] => l

/-- `re.sub(r"\*+$", "", e, flags=re.MULTILINE)`: strip runs of asterisks
at the end of every line. -/
def stripTrailingAsterisks (l : List Char) : List Char :=
  let lines := (String.mk l).splitOn "\n"
  String.data (String.intercalate "\n"
    (lines.map (fun ln => String.mk ((ln.data.reverse.dropWhile (· = '*')).reverse))))

/-- The explanation span: text after the first case-insensitive
occurrence of the bold explanation marker, up to the bold code marker or
the end of text, stripped, with trailing asterisk runs removed per line,
then stripped again. -/
def extractBoldExplanation (l : List Char) : String :=
  match afterFirstCI (l.length + 1) l "**explanation:**".data with
  | none => ""
  | some rest =>
    let rest1 := skipWs rest
    let content :=
      match beforeFirstCI (rest1.length + 1) rest1 "**code:**".data with
      | some pre => pre
      | none => untilDollar rest1
    pyStripL (stripTrailingAsterisks (pyStripL content))
      |> String.mk

/-- Word characters for the optional language tag of a fence. -/
def isWordChar (c : Char) : Bool :=
  ('a' ≤ c && c ≤ 'z') || ('A' ≤ c && c ≤ 'Z') || ('0' ≤ c && c ≤ '9') || c = '_'

/-- Case-sensitive variants of the first-occurrence scans. -/
def afterFirstSub (fuel : Nat) (hay needle : List Char) :
    Option (List Char) :=
  match fuel with
  | 0 => none
  | fuel + 1 =>
    if pyStartsWithL hay needle then some (hay.drop needle.length)
    else
      match hay with
      | [] => none
      | _ :: t => afterFirstSub fuel t needle

def beforeFirstSub (fuel : Nat) (hay needle : List Char) :
    Option (List Char) :=
  match fuel with
  | 0 => none
  | fuel + 1 =>
    if pyStartsWithL hay needle then some []
    else
      match hay with
      | [] => none
      | c :: t =>
        match beforeFirstSub fuel t needle with
        | some pre => some (c :: pre)
        | none => none

/-- The plain-text code span used when no fenced block follows the code
marker: whitespace skipped, then text up to a blank line, a newline
followed by an asterisk, or the end of text; stripped. -/
def codeStopScan (fuel : Nat) (r : List Char) : List Char :=
  match fuel with
  | 0 => []
  | fuel + 1 =>
    if pyStartsWithL r ['\n', '\n'] || pyStartsWithL r ['\n', '*'] then []
    else
      match r with
      | [] => []
      | c :: t => c :: codeStopScan fuel t

def codeTextSpan (l : List Char) : List Char :=
  let l1 := skipWs l
  pyStripL (codeStopScan (l1.length + 1) (untilDollar l1))

/-- The code span: from a fenced block after the bold code marker when
one is present and closed, otherwise the plain-text span after the
marker; empty when the marker is absent. -/
def extractBoldCode (l : List Char) : String :=
  match afterFirstCI (l.length + 1) l "**code:**".data with
  | none => ""
  | some rest =>
    match afterFirstSub (rest.length + 1) rest "```".data with
    | some afterTicks =>
      let afterWs := skipWs (afterTicks.dropWhile isWordChar)
      match beforeFirstSub (afterWs.length + 1) afterWs "```".data with
      | some body => String.mk (pyStripL body)
      | none => String.mk (codeTextSpan rest)
    | none => String.mk (codeTextSpan rest)

/-- Strategy 3 proper: enter when a bold explanation or code marker is
present (case-insensitive); accept only when a non-empty explanation was
extracted and the model construction succeeds (its failures are swallowed
by the handler of the strategy itself). -/
def tryBoldMarkers (response_clean : String) : Option ChatResponseModel :=
  let lower := pyLower response_clean
  if pyContains lower "**explanation:" || pyContains lower "**code:" then
    let explanation := extractBoldExplanation response_clean.data
    let code := extractBoldCode response_clean.data
    if explanation ≠ "" then
      match mkChatResponseModel explanation (if code ≠ "" then code else "") with
      | .ok r => some r
      | .error _ => none
    else none
  else none

/-! ### Strategy 4 — `PydanticOutputParser.parse` (chain.py lines 180-186)

The langchain collaborator: parse the (possibly fenced) JSON in the raw
response text and validate it against the model schema; every failure is
caught by the surrounding handler, so the strategy either yields a model
or falls through.  Modelled from the collaborator behaviour: strip,
try whole-text JSON, otherwise the first fenced object; then validate. -/
def pydanticOutputParse (response_text : String) : Option ChatResponseModel :=
  let stripped := pyStrip response_text
  match jsonParseObj stripped with
  | some d => (chatModelFromDict d).toOption
  | none =>
    match searchFence (stripped.data.length + 1) stripped.data with
    | some g => (jsonParseObj (String.mk g)).bind fun d =>
        (chatModelFromDict d).toOption
    | none => none

/-! ### The extraction chain of `LlmRunnable.invoke` (chain.py lines 111-199)

`invokeExtract` models `LlmRunnable.invoke` from the point where the
completion text `response_text` has been read off the provider response:

* empty text returns the fixed no-response reply (lines 111-115);
* otherwise the strategies run in order inside `try:`; a model
  `ValidationError` escaping strategies 1-2 is caught by the outer
  `except Exception` (line 193), which builds the raw-text fallback —
  exactly the same construction as the in-`try` fallback of line 192, so
  both paths denote `mkChatResponseModel response_text ""`; when that
  construction itself raises (raw text shorter than 10 characters), the
  exception propagates out of `invoke` (the handler re-raises the very
  construction it is recovering from). -/
def invokeExtract (response_text : String) : Except PyErr ChatResponseModel :=
  if response_text = "" then
    mkChatResponseModel "No response received from the LLM." ""
  else
    let response_clean := pyStrip response_text
    let fallback := mkChatResponseModel response_text ""
    match tryPureJson response_clean with
    | some (.ok r) => .ok r
    | some (.error _) => fallback
    | none =>
      match tryFencedJson response_clean with
      | some (.ok r) => .ok r
      | some (.error _) => fallback
      | none =>
        match tryBoldMarkers response_clean with
        | some r => .ok r
        | none =>
          match pydanticOutputParse response_text with
          | some r => .ok r
          | none => fallback

deriving instance DecidableEq for Except

/-! ### Theorems about the extraction chain -/

/-- Claim C1: the specification says the extractor never fails and in the
worst case returns the raw text verbatim as the explanation.  The code
contradicts this (and its own stated fallback intent): for the raw model
text "hi" every strategy falls through, the raw-text fallback construction
violates the 10-character minimum of the model on `explanation`, and the
`except Exception` handler retries the identical construction, so the
pydantic `ValidationError` propagates out of `invoke`. -/
theorem invokeExtract_short_raw_text_raises :
    invokeExtract "hi" =
      .error (.pydanticValidation "String should have at least 10 characters") := by
  decide

/-- Claim C2 (counterexample): on the raw text consisting exactly of the
JSON object with explanation "x" and code "y", the pure-JSON strategy
parses the object but the model construction rejects the 1-character
explanation (minimum 10), the `ValidationError` escapes to the outer
handler, and the extractor returns the raw text as the explanation — not
the pair of the parsed fields. -/
theorem invokeExtract_pure_json_short_explanation_cex :
    invokeExtract "\x7b\"explanation\":\"x\",\"code\":\"y\"\x7d" ≠
      Except.ok ⟨"x", "y"⟩ ∧
    invokeExtract "\x7b\"explanation\":\"x\",\"code\":\"y\"\x7d" =
      Except.ok ⟨"\x7b\"explanation\":\"x\",\"code\":\"y\"\x7d", ""⟩ := by
  decide

/-- Claim C2 (amended): when the raw text is exactly a JSON object whose
explanation value meets the 10-character minimum of the model, the pure-JSON
strategy succeeds and the returned reply carries the parsed fields. -/
theorem invokeExtract_pure_json_valid_explanation :
    invokeExtract "\x7b\"explanation\":\"xxxxxxxxxx\",\"code\":\"y\"\x7d" =
      Except.ok ⟨"xxxxxxxxxx", "y"⟩ := by
  decide

/-- Claim C3 (counterexample): on empty raw text the extractor does not
return the raw text as the explanation. -/
theorem invokeExtract_empty_cex :
    invokeExtract "" ≠ Except.ok ⟨"", ""⟩ := by
  decide

/-- Claim C3 (amended): on empty raw text the extractor does not raise
and returns the fixed reply with explanation "No response received from
the LLM." and empty code. -/
theorem invokeExtract_empty_placeholder :
    invokeExtract "" =
      Except.ok ⟨"No response received from the LLM.", ""⟩ := by
  decide

/-- Claim C10: every successfully constructed `ChatResponseModel` has an
explanation of at least 10 characters; constructing one with a shorter
explanation yields a pydantic `ValidationError`; and this applies in the
last-resort fallback path of the extractor, where the raw model text "abc" is
used as the explanation and the construction fails. -/
theorem chatResponseModel_min_length :
    (∀ e c r, mkChatResponseModel e c = .ok r → 10 ≤ pyLen r.explanation) ∧
    (∀ e c, pyLen e < 10 →
      mkChatResponseModel e c =
        .error (.pydanticValidation "String should have at least 10 characters")) ∧
    invokeExtract "abc" =
      .error (.pydanticValidation "String should have at least 10 characters") := by
  refine ⟨?_, ?_, by decide⟩
  · intro e c r h
    unfold mkChatResponseModel at h
    split at h
    · exact absurd h (by simp)
    · next hlt =>
      cases h
      exact Nat.le_of_not_lt hlt
  · intro e c h
    simp [mkChatResponseModel, h]

/-- Concrete instances of `chatResponseModel_min_length`: a 12-character
explanation is accepted and retains its length bound, a 2-character one is
rejected. -/
theorem chatResponseModel_min_length_witness :
    10 ≤ pyLen (ChatResponseModel.mk "abcdefghijkl" "x").explanation ∧
    mkChatResponseModel "ab" "" =
      .error (.pydanticValidation "String should have at least 10 characters") :=
  ⟨chatResponseModel_min_length.1 "abcdefghijkl" "x" ⟨"abcdefghijkl", "x"⟩ (by decide),
   chatResponseModel_min_length.2.1 "ab" "" (by decide)⟩

/-! ### `TranscribeAudio` (src/utils/TranscribeAudio.py)

The routine checks the audio path (exists, is a regular file, non-zero
size), then inside `try:` reads the `GROQ_API_KEY`, calls the Groq
transcription endpoint and post-processes the result.  `FileNotFoundError`
is re-raised unchanged; `GroqError` is wrapped into
`AudioTranscriptionException("Failed to transcribe audio using Groq API")`;
every other exception raised inside the `try:` — including the two
own `AudioTranscriptionException`s for a missing API key and for an empty
transcription result — is caught by the final `except Exception` and
re-wrapped as `AudioTranscriptionException("An unexpected error occurred
during audio transcription")`.  The empty-file check happens before the
`try:` block, so its exception is NOT re-wrapped and no provider
interaction occurs. -/

/-- What the filesystem holds at the audio path. -/
inductive FsEntry where
  | absent
  | directory
  | file (size : Nat)
deriving DecidableEq, Repr

/-- The ambient state `TranscribeAudio` consumes: the filesystem entry at
the audio path, the `GROQ_API_KEY` environment variable, and the outcome
of the Groq transcription call (on success, the `transcription.text`
field, which the provider may return empty). -/
structure TranscribeEnv where
  entry : FsEntry
  apiKey : Option String
  providerResult : Except PyErr String
deriving DecidableEq, Repr

/-- Result of a `TranscribeAudio` run plus whether the external provider
was contacted. -/
structure TranscribeOutcome where
  result : Except PyErr String
  providerCalled : Bool
deriving DecidableEq, Repr

def TranscribeAudio (env : TranscribeEnv) : TranscribeOutcome :=
  match env.entry with
  | .absent => ⟨.error (.fileNotFound "Audio file not found"), false⟩
  | .directory => ⟨.error (.valueError "Path is not a file"), false⟩
  | .file 0 => ⟨.error (.audioTranscription "Audio file is empty"), false⟩
  | .file (_ + 1) =>
    match env.apiKey with
    | none =>
      ⟨.error (.audioTranscription
        "An unexpected error occurred during audio transcription"), false⟩
    | some _ =>
      match env.providerResult with
      | .error e =>
        ⟨.error (match e with
          | .fileNotFound m => .fileNotFound m
          | .groqError _ =>
              .audioTranscription "Failed to transcribe audio using Groq API"
          | _ =>
              .audioTranscription
                "An unexpected error occurred during audio transcription"),
         true⟩
      | .ok t =>
        if t = "" then
          ⟨.error (.audioTranscription
            "An unexpected error occurred during audio transcription"), true⟩
        else ⟨.ok (pyStrip t), true⟩

/-- Claim C9: whenever the source audio file has zero bytes,
`TranscribeAudio` fails with the empty-audio transcription error before
any provider call is made. -/
theorem transcribeAudio_empty_file (env : TranscribeEnv)
    (h : env.entry = .file 0) :
    TranscribeAudio env =
      ⟨.error (.audioTranscription "Audio file is empty"), false⟩ := by
  unfold TranscribeAudio
  rw [h]

/-- Concrete instance of `transcribeAudio_empty_file`: a zero-byte file
with a configured key and a provider that would have succeeded. -/
theorem transcribeAudio_empty_file_witness :
    TranscribeAudio ⟨.file 0, some "key", .ok "hello from groq"⟩ =
      ⟨.error (.audioTranscription "Audio file is empty"), false⟩ :=
  transcribeAudio_empty_file ⟨.file 0, some "key", .ok "hello from groq"⟩ rfl

/-! ### Conversation turns and the history window
(src/Schema/ChatMemory.py, src/Services/ChatService/InvokeChatService.py
lines 168-195)

A `ChatMemory` row is a conversation turn; a non-null `resume_details`
marks a resume-ingestion record rather than a chat turn.  The orchestrator
fetches the rows of the user whose `resume_details` is null, ordered by
`created_at` descending, limited to 10, then iterates them in reverse,
keeping each truthy `message`. -/

structure ChatMemory where
  user_id : Nat
  role : String
  message : Option String
  resume_details : Option String
  created_at : Nat
deriving DecidableEq, Repr

/-- The ordering of `ORDER BY created_at DESC`: `a` comes no later than
`b` when `a` was created no earlier. -/
def newerEq (a b : ChatMemory) : Prop := b.created_at ≤ a.created_at

instance : DecidableRel newerEq := fun a b => Nat.decLe b.created_at a.created_at

instance : IsTotal ChatMemory newerEq :=
  ⟨fun a b => Nat.le_total b.created_at a.created_at⟩

instance : IsTrans ChatMemory newerEq :=
  ⟨fun _ _ _ hab hbc => le_trans hbc hab⟩

/-- The ORM query of lines 175-184: filter to the rows of the user with null
`resume_details`, order newest-first, take the first `limit`. -/
def queryRecentChats (rows : List ChatMemory) (uid : Nat) (limit : Nat) :
    List ChatMemory :=
  (List.insertionSort newerEq
      (rows.filter fun m => m.user_id == uid && m.resume_details.isNone)).take
    limit

/-- The formatting loop of lines 186-189: iterate the query result in
reverse and keep each truthy `message`. -/
def historyWindow (rows : List ChatMemory) (uid : Nat) (limit : Nat) :
    List String :=
  ((queryRecentChats rows uid limit).reverse).filterMap fun m =>
    match m.message with
    | some s => if s = "" then none else some s
    | none => none

/-- Claim C7: for every row set and limit, the history window excludes
every resume-flagged turn (each returned string is the message text of
one of the non-resume turns of the user), keeps at most `limit` entries, is
empty on empty input, and presents the turns chosen newest-first in
reversed, oldest-first order (the reversed selection is sorted by
ascending creation time). -/
theorem historyWindow_spec (rows : List ChatMemory) (uid limit : Nat) :
    (∀ s ∈ historyWindow rows uid limit,
      ∃ m ∈ rows, m.user_id = uid ∧ m.resume_details = none ∧
        m.message = some s) ∧
    (historyWindow rows uid limit).length ≤ limit ∧
    historyWindow [] uid limit = [] ∧
    List.Sorted (fun a b => a.created_at ≤ b.created_at)
      ((queryRecentChats rows uid limit).reverse) := by
  refine ⟨?_, ?_, ?_, ?_⟩
  · intro s hs
    unfold historyWindow at hs
    obtain ⟨m, hm, hfm⟩ := List.mem_filterMap.mp hs
    have hm' : m ∈ queryRecentChats rows uid limit := List.mem_reverse.mp hm
    unfold queryRecentChats at hm'
    have hm'' := (List.take_sublist _ _).mem hm'
    have hm3 := (List.mem_insertionSort newerEq).mp hm''
    obtain ⟨hmem, hpred⟩ := List.mem_filter.mp hm3
    refine ⟨m, hmem, ?_, ?_, ?_⟩
    · simpa using (Bool.and_elim_left hpred)
    · simpa [Option.isNone_iff_eq_none] using (Bool.and_elim_right hpred)
    · cases hm4 : m.message with
      | none => rw [hm4] at hfm; cases hfm
      | some t =>
        rw [hm4] at hfm
        by_cases ht : t = ""
        · simp [ht] at hfm
        · simp only [if_neg ht, Option.some.injEq] at hfm
          exact congrArg some hfm
  · calc (historyWindow rows uid limit).length
        ≤ ((queryRecentChats rows uid limit).reverse).length :=
          List.length_filterMap_le _ _
      _ = (queryRecentChats rows uid limit).length := List.length_reverse _
      _ ≤ limit := by
          unfold queryRecentChats
          exact List.length_take_le _ _
  · simp [historyWindow, queryRecentChats]
  · unfold queryRecentChats
    have hsort : List.Sorted newerEq
        (List.insertionSort newerEq
          (rows.filter fun m => m.user_id == uid && m.resume_details.isNone)) :=
      List.sorted_insertionSort newerEq _
    have htake := List.Pairwise.sublist (List.take_sublist limit _) hsort
    exact List.pairwise_reverse.mpr (by
      simpa [newerEq, flip] using htake)

/-- Concrete instance of `historyWindow_spec`: a resume record is
excluded, the newest-first selection of the two chat turns comes back
oldest-first, and the bound and the empty case hold. -/
theorem historyWindow_spec_witness :
    (historyWindow
      [⟨1, "user", some "first", none, 1⟩,
       ⟨1, "user", some "resume", some "cv text", 2⟩,
       ⟨1, "user", some "second", none, 3⟩] 1 10).length ≤ 10 ∧
    historyWindow [] 1 10 = [] :=
  ⟨(historyWindow_spec
      [⟨1, "user", some "first", none, 1⟩,
       ⟨1, "user", some "resume", some "cv text", 2⟩,
       ⟨1, "user", some "second", none, 3⟩] 1 10).2.1,
   (historyWindow_spec [] 1 10).2.2.1⟩

/-! ### The chat orchestration `InvokeChat`
(src/Services/ChatService/InvokeChatService.py)

The orchestrator validates the inputs, calls `GetResumeDetails` (the
store), optionally writes the audio blob to a fresh temp file and
transcribes it, merges text and transcript, fetches the history window,
invokes the chain, best-effort persists two new turns and returns the
reply.  External collaborator outcomes are collected in `ChatEnv`; the
orchestrator threads a list of collaborator events, a set of existing
temp files, and the list of committed rows.  Its trailing handlers
re-raise `EmailNotFoundException`, `ValueError` (which includes pydantic
`ValidationError`) and `BaseAppException` unchanged and wrap everything
else into `DatabaseOperationException("chat_invocation", str(e))`. -/

/-- The FastAPI `UploadFile` fields the orchestrator reads. -/
structure AudioUpload where
  filename : Option String
  content : List Nat
deriving DecidableEq, Repr

/-- One record of the list returned by `GetResumeDetails` (the fields the
orchestrator reads). -/
structure ResumeRecord where
  id : String
  resume_details : Option String
deriving DecidableEq, Repr

/-- Collaborator invocations, in order of occurrence. -/
inductive ChatEvent where
  | storeResumeLookup
  | transcribeCall
  | storeQueryUser
  | storeQueryHistory
  | modelCall
  | storeCommit
deriving DecidableEq, Repr

/-- Outcomes of the external collaborators for one orchestration call:
the `GetResumeDetails` result (records and user id), the transcription
result, the user row lookup of the history block (`.error` when the query
raises, `.ok none` when no row matches), the stored conversation rows,
the model completion text, and whether the turn-persisting commit
succeeds. -/
structure ChatEnv where
  resumeLookup : Except PyErr (List ResumeRecord × String)
  transcribeResult : Except PyErr String
  userLookup : Except PyErr (Option Nat)
  chatRows : List ChatMemory
  modelText : Except PyErr String
  commitOk : Bool
deriving DecidableEq, Repr

/-- The dictionary returned by `InvokeChat` on success. -/
structure ChatResult where
  explanation : String
  code : String
  user_id : String
deriving DecidableEq, Repr

/-- Result of one orchestration call: the returned value or propagated
exception, the collaborator events in order, the temp files existing
afterwards, and the conversation rows committed by the call. -/
structure ChatOutcome where
  result : Except PyErr ChatResult
  events : List ChatEvent
  fs : List String
  saved : List ChatMemory
deriving DecidableEq, Repr

/-- The exception classes the trailing handlers of `InvokeChat` re-raise
unchanged: `EmailNotFoundException`, `ValueError` and its pydantic
subclass, and every `BaseAppException` subclass. -/
def reRaisedUnchanged : PyErr → Bool
  | .valueError _ => true
  | .emailNotFound _ => true
  | .databaseOperation _ _ => true
  | .audioTranscription _ => true
  | .pydanticValidation _ => true
  | _ => false

/-- Lines 255-266: exceptions reaching the end of the big `try:` are
re-raised unchanged when of an application class, otherwise wrapped into
`DatabaseOperationException("chat_invocation", str(e))`. -/
def wrapOuter (e : PyErr) : PyErr :=
  if reRaisedUnchanged e then e else .databaseOperation "chat_invocation" e.text

/-- The audio-processing block (lines 116-150): write the blob to a fresh
temp path; transcribe it; any exception in the block is wrapped into
`DatabaseOperationException("audio_processing", str(e))`; the `finally`
clause unlinks the temp path when it exists.  Returns the block outcome
and the filesystem after it. -/
def processAudio (tempPath : String) (transcribeResult : Except PyErr String)
    (fs : List String) : Except PyErr String × List String :=
  let fs1 := tempPath :: fs
  let res : Except PyErr String :=
    match transcribeResult with
    | .ok t => .ok t
    | .error e => .error (.databaseOperation "audio_processing" e.text)
  let fs2 := if fs1.contains tempPath then fs1.erase tempPath else fs1
  (res, fs2)

/-- Lines 152-160: merge the text input and the transcript.  Both are
used only when truthy; when both contribute they are joined by a blank
line, text first, each stripped. -/
def mergeInput (text : Option String) (transcribed : String) : String :=
  let t1 :=
    match text with
    | some s => if s ≠ "" then pyStrip s else ""
    | none => ""
  if transcribed ≠ "" then
    if t1 ≠ "" then t1 ++ "\n\n" ++ pyStrip transcribed else pyStrip transcribed
  else t1

/-- Lines 197-253: invoke the chain on the merged input and best-effort
persist the two new turns.  `dbUser` is the binding state of the local
`db_user` from the history block: `none` when the history query raised
before the assignment (so the later `if db_user:` hits an unbound local
and the resulting `NameError` is wrapped by the outer handler), `some
none` when the user row was absent, `some (some uid)` when present.
A chain failure propagates through the trailing handlers; on success the
reply is returned even when the commit fails (the handler of lines
238-242 logs, rolls back and continues). -/
def invokeChainAndSave (inputText : String) (dbUser : Option (Option Nat))
    (_history : List String) (userId : String) (env : ChatEnv)
    (fs : List String) (evs : List ChatEvent) : ChatOutcome :=
  match env.modelText with
  | .error e => ⟨.error (wrapOuter e), evs ++ [.modelCall], fs, []⟩
  | .ok raw =>
    match invokeExtract raw with
    | .error e => ⟨.error (wrapOuter e), evs ++ [.modelCall], fs, []⟩
    | .ok reply =>
      match dbUser with
      | none =>
        ⟨.error (wrapOuter (.other "name db_user is not defined")),
         evs ++ [.modelCall], fs, []⟩
      | some none =>
        ⟨.ok ⟨reply.explanation, reply.code, userId⟩, evs ++ [.modelCall], fs, []⟩
      | some (some uid) =>
        let userMsg : ChatMemory := ⟨uid, "user", some inputText, none, 0⟩
        let assistantMsg : ChatMemory :=
          ⟨uid, "assistant",
           some (if reply.code ≠ "" then
                   "Explanation: " ++ reply.explanation ++ "\n\nCode: " ++ reply.code
                 else reply.explanation), none, 0⟩
        let saved := if env.commitOk then [userMsg, assistantMsg] else []
        ⟨.ok ⟨reply.explanation, reply.code, userId⟩,
         evs ++ [.modelCall, .storeCommit], fs, saved⟩

/-- Lines 162-195: the merged-input check and the history block, then the
chain-and-save tail.  A raising history query is swallowed (the code
continues without history), but leaves `db_user` unbound. -/
def invokeAfterInput (inputText : String) (userId : String) (env : ChatEnv)
    (fs : List String) (evs : List ChatEvent) : ChatOutcome :=
  if inputText = "" then
    ⟨.error (.valueError "No text input available after processing audio"),
     evs, fs, []⟩
  else
    match env.userLookup with
    | .error _ =>
      invokeChainAndSave inputText none [] userId env fs
        (evs ++ [.storeQueryUser])
    | .ok none =>
      invokeChainAndSave inputText (some none) [] userId env fs
        (evs ++ [.storeQueryUser])
    | .ok (some uid) =>
      invokeChainAndSave inputText (some (some uid))
        (historyWindow env.chatRows uid 10) userId env fs
        (evs ++ [.storeQueryUser, .storeQueryHistory])

def InvokeChat (text : Option String) (audio : Option AudioUpload)
    (_email : String) (env : ChatEnv) (fs : List String) (tempPath : String) :
    ChatOutcome :=
  if !(pyTruthyOpt text) && audio.isNone then
    ⟨.error (.valueError "Either text or audio input must be provided"),
     [], fs, []⟩
  else
    match env.resumeLookup with
    | .error e => ⟨.error (wrapOuter e), [.storeResumeLookup], fs, []⟩
    | .ok (records, userId) =>
      let _resumeText : String :=
        match records with
        | [] => "No resume details available."
        | r :: _ => r.resume_details.getD ""
      match audio with
      | none =>
        invokeAfterInput (mergeInput text "") userId env fs
          [.storeResumeLookup]
      | some _ =>
        match processAudio tempPath env.transcribeResult fs with
        | (.error e, fs2) =>
          ⟨.error (wrapOuter e), [.storeResumeLookup, .transcribeCall], fs2, []⟩
        | (.ok transcribed, fs2) =>
          invokeAfterInput (mergeInput text transcribed) userId env fs2
            [.storeResumeLookup, .transcribeCall]

/-! ### Theorems about the orchestrator -/

/-- Claim C6: orchestrating a request in which both text and audio are
absent fails with the validation error of lines 90-93 (a `ValueError`,
surfaced as a validation failure) before any collaborator is invoked: the
event trace is empty, the filesystem is untouched and nothing is
persisted. -/
theorem invokeChat_no_input_validation (email : String) (env : ChatEnv)
    (fs : List String) (tempPath : String) :
    InvokeChat none none email env fs tempPath =
      ⟨.error (.valueError "Either text or audio input must be provided"),
       [], fs, []⟩ := rfl

/-- The `finally` clause of the audio block removes the temp file it
created, so the block leaves the filesystem as it found it. -/
theorem processAudio_fs (tempPath : String) (tr : Except PyErr String)
    (fs : List String) :
    (processAudio tempPath tr fs).2 = fs := by
  simp [processAudio]

/-- The chain-and-save tail never touches the filesystem. -/
theorem invokeChainAndSave_fs (inputText : String)
    (dbUser : Option (Option Nat)) (h : List String) (userId : String)
    (env : ChatEnv) (fs : List String) (evs : List ChatEvent) :
    (invokeChainAndSave inputText dbUser h userId env fs evs).fs = fs := by
  unfold invokeChainAndSave
  rcases env.modelText with e | raw
  · rfl
  · rcases hx : invokeExtract raw with e | reply
    · simp [hx]
    · rcases dbUser with _ | (_ | uid) <;> simp [hx]

/-- The input-check, history and save stages never touch the
filesystem. -/
theorem invokeAfterInput_fs (inputText : String) (userId : String)
    (env : ChatEnv) (fs : List String) (evs : List ChatEvent) :
    (invokeAfterInput inputText userId env fs evs).fs = fs := by
  unfold invokeAfterInput
  split
  · rfl
  · rcases env.userLookup with e | (_ | uid) <;> simp [invokeChainAndSave_fs]

/-- Every exit path of `InvokeChat` leaves the filesystem exactly as it
found it: the temp audio file, when one is created, is deleted again
before the call returns or propagates. -/
theorem invokeChat_fs (text : Option String) (audio : Option AudioUpload)
    (email : String) (env : ChatEnv) (fs : List String) (tempPath : String) :
    (InvokeChat text audio email env fs tempPath).fs = fs := by
  unfold InvokeChat
  split
  · rfl
  · rcases env.resumeLookup with e | ⟨records, userId⟩
    · rfl
    · rcases audio with _ | a
      · simp [invokeAfterInput_fs]
      · rcases hpa : processAudio tempPath env.transcribeResult fs with ⟨r, fs2⟩
        have hfs2 : fs2 = fs := by
          have := processAudio_fs tempPath env.transcribeResult fs
          rw [hpa] at this
          exact this
        rcases r with e | tr <;> simp [hpa, hfs2, invokeAfterInput_fs]

/-- Claim C5: on every orchestration call on a fresh temp path — whatever
the inputs and whatever the collaborators do (transcription success,
transcription failure, downstream merge failure, model failure, commit
failure) — the temp audio file is absent from the filesystem when the
call returns or propagates. -/
theorem invokeChat_temp_file_cleanup (text : Option String)
    (audio : Option AudioUpload) (email : String) (env : ChatEnv)
    (fs : List String) (tempPath : String) (hfresh : tempPath ∉ fs) :
    tempPath ∉ (InvokeChat text audio email env fs tempPath).fs := by
  rw [invokeChat_fs]
  exact hfresh

/-- Concrete instance of `invokeChat_temp_file_cleanup`: audio present
and transcription raising. -/
theorem invokeChat_temp_file_cleanup_witness :
    "tmpdir-audio.wav" ∉
      (InvokeChat none (some ⟨some "a.wav", [1, 2]⟩) "u@e.co"
        ⟨.ok ([], "7"), .error (.audioTranscription "provider down"),
         .ok none, [], .ok "some completion", true⟩
        ["other.txt"] "tmpdir-audio.wav").fs :=
  invokeChat_temp_file_cleanup none (some ⟨some "a.wav", [1, 2]⟩) "u@e.co"
    ⟨.ok ([], "7"), .error (.audioTranscription "provider down"),
     .ok none, [], .ok "some completion", true⟩
    ["other.txt"] "tmpdir-audio.wav" (by decide)

/-- Recognises the transcription-specific domain error kind
(`AudioTranscriptionException`, the TranscriptionError of the
specification taxonomy). -/
def isTranscriptionError : Except PyErr ChatResult → Bool
  | .error (.audioTranscription _) => true
  | _ => false

/-- Claim C4 (counterexample): with audio present and the transcription
step raising the transcription domain error, the orchestrator propagates
a `DatabaseOperationException` tagged `audio_processing` — not the
transcription-specific error kind the claim names. -/
theorem invokeChat_transcription_error_kind_cex :
    (InvokeChat none (some ⟨some "a.wav", [1]⟩) "u@e.co"
      ⟨.ok ([], "7"), .error (.audioTranscription "transcription failed"),
       .ok none, [], .ok "completion", true⟩ [] "tmp1").result =
      .error (.databaseOperation "audio_processing" "transcription failed") ∧
    isTranscriptionError
      (InvokeChat none (some ⟨some "a.wav", [1]⟩) "u@e.co"
        ⟨.ok ([], "7"), .error (.audioTranscription "transcription failed"),
         .ok none, [], .ok "completion", true⟩ [] "tmp1").result = false := by
  decide

/-- Claim C4 (amended): when audio is present and transcription fails
with any exception, the orchestrator wraps the failure into
`DatabaseOperationException("audio_processing", str(e))` and propagates
it to the caller; the failure is never silently ignored. -/
theorem invokeChat_transcription_error_wrapped (text : Option String)
    (a : AudioUpload) (email : String) (env : ChatEnv) (fs : List String)
    (tempPath : String) (records : List ResumeRecord) (userId : String)
    (e : PyErr)
    (hres : env.resumeLookup = .ok (records, userId))
    (htr : env.transcribeResult = .error e) :
    (InvokeChat text (some a) email env fs tempPath).result =
      .error (.databaseOperation "audio_processing" e.text) := by
  unfold InvokeChat
  rw [hres]
  simp [processAudio, htr, wrapOuter, reRaisedUnchanged]

/-- Concrete instance of `invokeChat_transcription_error_wrapped`: a Groq
provider failure during transcription. -/
theorem invokeChat_transcription_error_wrapped_witness :
    (InvokeChat none (some ⟨none, []⟩) "u@e.co"
      ⟨.ok ([⟨"1", some "cv"⟩], "3"), .error (.groqError "rate limited"),
       .ok (some 3), [], .ok "completion", true⟩ [] "tmp2").result =
      .error (.databaseOperation "audio_processing" "rate limited") :=
  invokeChat_transcription_error_wrapped none ⟨none, []⟩ "u@e.co"
    ⟨.ok ([⟨"1", some "cv"⟩], "3"), .error (.groqError "rate limited"),
     .ok (some 3), [], .ok "completion", true⟩ [] "tmp2"
    [⟨"1", some "cv"⟩] "3" (.groqError "rate limited") rfl rfl

/-- Claim C8: with a valid text-only request, a resolved user, a
successful model call and extraction, but a failing commit of the two new
turns, the orchestrator still returns the valid reply (explanation, code
and user id) and simply persists nothing. -/
theorem invokeChat_persistence_best_effort (t : String) (email : String)
    (env : ChatEnv) (fs : List String) (tempPath : String)
    (records : List ResumeRecord) (userId : String) (uid : Nat)
    (raw : String) (reply : ChatResponseModel)
    (hstrip : pyStrip t ≠ "")
    (hres : env.resumeLookup = .ok (records, userId))
    (huser : env.userLookup = .ok (some uid))
    (hmodel : env.modelText = .ok raw)
    (hextract : invokeExtract raw = .ok reply)
    (hcommit : env.commitOk = false) :
    (InvokeChat (some t) none email env fs tempPath).result =
      .ok ⟨reply.explanation, reply.code, userId⟩ ∧
    (InvokeChat (some t) none email env fs tempPath).saved = [] := by
  have ht : t ≠ "" := by
    intro h
    rw [h] at hstrip
    exact hstrip rfl
  simp [InvokeChat, invokeAfterInput, invokeChainAndSave, mergeInput,
    pyTruthyOpt, hres, huser, hmodel, hextract, hcommit, ht, hstrip]

/-- Concrete instance of `invokeChat_persistence_best_effort`: a plain
prose completion, a failing commit, the reply still returned. -/
theorem invokeChat_persistence_best_effort_witness :
    (InvokeChat (some "hello there") none "u@e.co"
      ⟨.ok ([], "9"), .ok "", .ok (some 1), [],
       .ok "this is a plain prose answer", false⟩ [] "tmp3").result =
      .ok ⟨"this is a plain prose answer", "", "9"⟩ ∧
    (InvokeChat (some "hello there") none "u@e.co"
      ⟨.ok ([], "9"), .ok "", .ok (some 1), [],
       .ok "this is a plain prose answer", false⟩ [] "tmp3").saved = [] :=
  invokeChat_persistence_best_effort "hello there" "u@e.co"
    ⟨.ok ([], "9"), .ok "", .ok (some 1), [],
     .ok "this is a plain prose answer", false⟩ [] "tmp3"
    [] "9" 1 "this is a plain prose answer"
    ⟨"this is a plain prose answer", ""⟩
    (by decide) rfl rfl rfl (by decide) rfl
